import Mathlib

/-!
Shallow embedding of the token-lifecycle and revocation subsystem of the
FastAPI backend (src/backend/app): the Redis-backed revocation store
(services/jti.py), one-time codes (services/otp.py), OAuth state
(services/wechat_oauth.py), the authorization middleware
(middleware/auth.py) and the session routes (api/routes/auth.py).

Time is modelled as a rational-valued Unix timestamp.  The Redis store is
modelled as an association list from keys to values with an optional
absolute expiry instant; a key set with `ex=ttl` at time `t0` is visible
exactly while `now < t0 + ttl`.
-/

/-- Truncation toward zero, the semantics of Python's `int()` applied to a
float: floor for nonnegative arguments, ceiling for negative ones. -/
def pyInt (q : ℚ) : ℤ :=
  if q < 0 then ⌈q⌉ else ⌊q⌋

/-- The key-value store with per-key expiry (Redis), as an association
list of (key, value, optional absolute expiry instant). -/
structure Store where
  entries : List (String × String × Option ℚ)
deriving DecidableEq

def Store.empty : Store := ⟨[]⟩

/-- Redis GET at time `now`: the first entry for the key, provided its
expiry instant (if any) has not been reached. -/
def Store.get (s : Store) (now : ℚ) (k : String) : Option String :=
  match s.entries.find? (fun e => e.1 == k) with
  | none => none
  | some (_, v, none) => some v
  | some (_, v, some ex) => if now < ex then some v else none

/-- Redis SET (with optional absolute expiry): overwrites any previous
entry for the key. -/
def Store.set (s : Store) (k v : String) (ex : Option ℚ) : Store :=
  ⟨(k, v, ex) :: s.entries.filter (fun e => e.1 != k)⟩

/-- Redis DEL: removes every entry for the key. -/
def Store.del (s : Store) (k : String) : Store :=
  ⟨s.entries.filter (fun e => e.1 != k)⟩

/-- The raw stored expiry field of the first entry for a key (ignores the
clock): `none` if no entry, `some none` for a permanent entry,
`some (some t)` for an entry expiring at `t`. -/
def Store.lookupExp (s : Store) (k : String) : Option (Option ℚ) :=
  (s.entries.find? (fun e => e.1 == k)).map (fun e => e.2.2)

theorem find?_filter_ne (l : List (String × String × Option ℚ)) (k k' : String)
    (h : k ≠ k') :
    (l.filter (fun e => e.1 != k)).find? (fun e => e.1 == k') =
      l.find? (fun e => e.1 == k') := by
  have hkk : (k == k') = false := beq_eq_false_iff_ne.mpr h
  induction l with
  | nil => rfl
  | cons a t ih =>
    by_cases hak : a.1 = k
    · simp [List.filter_cons, hak, List.find?_cons, hkk, ih]
    · by_cases hak' : a.1 = k'
      · have : k' ≠ k := fun hh => h hh.symm
        simp [List.filter_cons, hak, List.find?_cons, hak', this]
      · simp [List.filter_cons, hak, List.find?_cons, hak', ih]

theorem find?_filter_self (l : List (String × String × Option ℚ)) (k : String) :
    (l.filter (fun e => e.1 != k)).find? (fun e => e.1 == k) = none := by
  induction l with
  | nil => rfl
  | cons a t ih =>
    by_cases hak : a.1 = k
    · simp [List.filter_cons, hak, ih]
    · simp [List.filter_cons, hak, List.find?_cons, ih]

theorem Store.get_set_self (s : Store) (now : ℚ) (k v : String) (ex : Option ℚ) :
    (s.set k v ex).get now k =
      (match ex with
       | none => some v
       | some e => if now < e then some v else none) := by
  cases ex <;> simp [Store.set, Store.get, List.find?_cons]

theorem Store.get_set_ne (s : Store) (now : ℚ) (k v : String) (ex : Option ℚ)
    (k' : String) (h : k ≠ k') :
    (s.set k v ex).get now k' = s.get now k' := by
  have hne : (k == k') = false := by
    simp
    exact h
  simp only [Store.set, Store.get, List.find?_cons, hne]
  rw [find?_filter_ne _ _ _ h]

theorem Store.get_del_self (s : Store) (now : ℚ) (k : String) :
    (s.del k).get now k = none := by
  simp only [Store.del, Store.get]
  rw [find?_filter_self]

theorem Store.get_del_ne (s : Store) (now : ℚ) (k k' : String) (h : k ≠ k') :
    (s.del k).get now k' = s.get now k' := by
  simp only [Store.del, Store.get]
  rw [find?_filter_ne _ _ _ h]

theorem Store.lookupExp_set_self (s : Store) (k v : String) (ex : Option ℚ) :
    (s.set k v ex).lookupExp k = some ex := by
  simp [Store.set, Store.lookupExp, List.find?_cons]

theorem Store.lookupExp_set_ne (s : Store) (k v : String) (ex : Option ℚ)
    (k' : String) (h : k ≠ k') :
    (s.set k v ex).lookupExp k' = s.lookupExp k' := by
  have hne : (k == k') = false := by
    simp
    exact h
  simp only [Store.set, Store.lookupExp, List.find?_cons, hne]
  rw [find?_filter_ne _ _ _ h]

/-! ### services/jti.py -/

/-- Embeds `jti_key` (services/jti.py): the Redis key for a JTI. -/
def jti_key (jti : String) : String := "jti:" ++ jti

/-- Embeds `is_jti_revoked` (services/jti.py): a JTI is revoked iff a live
entry exists for its key. -/
def is_jti_revoked (s : Store) (now : ℚ) (jti : String) : Bool :=
  (s.get now (jti_key jti)).isSome

/-- Embeds `revoke_jti` (services/jti.py).  With `exp_ts` given it computes
`remaining = int(exp_ts - now)` (Python truncation), returns `false`
writing nothing when `remaining <= 0`, and otherwise writes the marker
`"revoked"` with TTL `remaining` seconds (absolute expiry
`now + remaining`).  With `exp_ts` omitted it writes a permanent marker.
Returns the bool result together with the updated store. -/
def revoke_jti (s : Store) (now : ℚ) (jti : String) (exp_ts : Option ℚ) :
    Bool × Store :=
  match exp_ts with
  | some e =>
    let remaining : ℤ := pyInt (e - now)
    if remaining ≤ 0 then (false, s)
    else (true, s.set (jti_key jti) "revoked" (some (now + (remaining : ℚ))))
  | none => (true, s.set (jti_key jti) "revoked" none)

/-! ### services/otp.py -/

/-- Embeds `_otp_key` (services/otp.py). -/
def otp_key (phone : String) : String := "otp:" ++ phone

/-- Embeds `_rate_key` (services/otp.py). -/
def rate_key (phone : String) : String := "otp:rate:" ++ phone

/-- Embeds `issue_code` (services/otp.py).  The randomly generated code is
passed in as the `code` parameter.  If a (truthy) rate-limit marker is
live the call raises `RuntimeError`, modelled as `none`; otherwise it
stores the code with TTL `ttl` and the rate marker `"1"` with TTL `rate`,
returning the code and the updated store. -/
def issue_code (s : Store) (now : ℚ) (phone code : String) (ttl rate : ℚ) :
    Option (String × Store) :=
  match s.get now (rate_key phone) with
  | some v =>
    if v = "" then
      some (code, ((s.set (otp_key phone) code (some (now + ttl))).set
        (rate_key phone) "1" (some (now + rate))))
    else none
  | none =>
    some (code, ((s.set (otp_key phone) code (some (now + ttl))).set
      (rate_key phone) "1" (some (now + rate))))

/-- Embeds `verify_code` (services/otp.py): a falsy (absent or empty)
stored code fails; a matching stored code is deleted and the call
succeeds; a mismatch fails leaving the store unchanged. -/
def verify_code (s : Store) (now : ℚ) (phone code : String) : Bool × Store :=
  match s.get now (otp_key phone) with
  | none => (false, s)
  | some stored =>
    if stored = "" then (false, s)
    else if stored = code then (true, s.del (otp_key phone))
    else (false, s)

/-! ### services/wechat_oauth.py -/

/-- Embeds `STATE_TTL_SECONDS` (services/wechat_oauth.py). -/
def STATE_TTL_SECONDS : ℚ := 300

/-- Embeds `generate_state` (services/wechat_oauth.py): the random state
string is passed in as the `state` parameter; the entry `"1"` is stored
under `wxstate:{state}` with TTL `STATE_TTL_SECONDS`. -/
def generate_state (s : Store) (now : ℚ) (state : String) : String × Store :=
  (state, s.set ("wxstate:" ++ state) "1" (some (now + STATE_TTL_SECONDS)))

/-- Embeds `validate_state` (services/wechat_oauth.py): a falsy (absent or
empty) value fails; otherwise the entry is deleted (single use) and the
call succeeds. -/
def validate_state (s : Store) (now : ℚ) (state : String) : Bool × Store :=
  match s.get now ("wxstate:" ++ state) with
  | none => (false, s)
  | some v =>
    if v = "" then (false, s)
    else (true, s.del ("wxstate:" ++ state))

/-! ### Tokens and decoding

The JWT payloads handled by the middleware and the auth routes.  A falsy
(`None` or `""`) string claim is represented as `""`; a falsy `exp` claim
is `none` (absent) or `some 0`. -/

structure Payload where
  sub : String
  token_use : String
  jti : String
  exp : Option ℚ
deriving DecidableEq

/-- A presented bearer token: either undecodable (malformed, tampered, or
wrongly signed) or a well-signed token carrying a payload. -/
inductive TokenData where
  | malformed
  | payload (p : Payload)
deriving DecidableEq

inductive DecodeResult where
  | ok (p : Payload)
  | expired
  | invalid
deriving DecidableEq

/-- Modelled from the spec: the Token Codec (`app/core/security.py` and
the JWT library behind `jwt.decode`) is not under src/.  Per spec section
4.1 `decode` verifies signature and expiry and fails with `Expired`
distinctly from `InvalidToken` (tampered or malformed); per the leeway
behaviour of the gate, a token is rejected as expired only once its `exp`
lies more than `leeway` seconds in the past, and a token without an `exp`
claim does not expire. -/
def decode (t : TokenData) (now leeway : ℚ) : DecodeResult :=
  match t with
  | .malformed => .invalid
  | .payload p =>
    match p.exp with
    | none => .ok p
    | some e => if e + leeway < now then .expired else .ok p

/-! ### middleware/auth.py -/

/-- The token-bearing positions of a request, in the extraction order of
`AuthMiddleware.dispatch` lines 58 to 66: `Authorization: Bearer` header,
`access_token` query parameter, `access_token` cookie. -/
structure Request where
  headerTok : Option TokenData
  queryTok : Option TokenData
  cookieTok : Option TokenData
deriving DecidableEq

/-- Embeds the token extraction of `AuthMiddleware.dispatch`: the first
present source wins (header, then query, then cookie). -/
def extract_token (r : Request) : Option TokenData :=
  match r.headerTok with
  | some t => some t
  | none =>
    match r.queryTok with
    | some t => some t
    | none => r.cookieTok

/-- Outcome of `AuthMiddleware.dispatch` on a protected request: either
the identity is attached and the handler runs (`proceed`), or one of the
distinct rejection responses of middleware/auth.py lines 68 to 121 is
returned. -/
inductive GateResult where
  | proceed (sub jti : String)
  | rejectNoToken
  | rejectExpired
  | rejectInvalid
  | rejectNoJti
  | rejectRevoked
  | rejectStoreDown
  | rejectNoSub
  | rejectUserNotFound
  | rejectInactive
deriving DecidableEq

/-- HTTP status of each gate outcome (`none` when the handler runs).
`rejectExpired` additionally carries the expiry-specific
`WWW-Authenticate` marker in the source; it is kept as its own
constructor for that reason. -/
def statusOf : GateResult → Option Nat
  | .proceed _ _ => none
  | .rejectNoToken => some 401
  | .rejectExpired => some 401
  | .rejectInvalid => some 403
  | .rejectNoJti => some 401
  | .rejectRevoked => some 401
  | .rejectStoreDown => some 503
  | .rejectNoSub => some 401
  | .rejectUserNotFound => some 404
  | .rejectInactive => some 400

/-- The continuation of `AuthMiddleware.dispatch` after the revocation
check (lines 95 to 108): subject claim check, user lookup, active check.
`users` maps a subject to `none` (no such user) or `some isActive`. -/
def afterRevocation (users : String → Option Bool) (p : Payload) : GateResult :=
  if p.sub = "" then .rejectNoSub
  else
    match users p.sub with
    | none => .rejectUserNotFound
    | some false => .rejectInactive
    | some true => .proceed p.sub p.jti

/-- Embeds the protected branch of `AuthMiddleware.dispatch`
(middleware/auth.py lines 58 to 123); preflight and allow-listed requests
(lines 26 to 56) bypass the gate and are out of this definition's scope.
`storeUp = false` models the revocation-store call raising; in that case
a non-`"local"` environment fails closed with 503 and the `"local"`
environment skips the check. -/
def dispatch_protected (env : String) (leeway : ℚ) (storeUp : Bool)
    (s : Store) (now : ℚ) (users : String → Option Bool) (r : Request) :
    GateResult :=
  match extract_token r with
  | none => .rejectNoToken
  | some t =>
    match decode t now leeway with
    | .expired => .rejectExpired
    | .invalid => .rejectInvalid
    | .ok p =>
      if p.jti = "" then .rejectNoJti
      else if storeUp then
        if is_jti_revoked s now p.jti then .rejectRevoked
        else afterRevocation users p
      else if env ≠ "local" then .rejectStoreDown
      else afterRevocation users p

/-- Embeds the `leeway=5.0` with which main.py (line 55) registers
`AuthMiddleware`. -/
def appLeeway : ℚ := 5

/-! ### api/routes/auth.py -/

/-- Outcome of the `/auth/refresh` route: a freshly minted
access+refresh pair, or one of its error responses (the
`ExpiredSignatureError` of an expired refresh token is a subclass of
`InvalidTokenError`, so both decode failures land in the 400
`invalidToken` handler). -/
inductive RefreshResult where
  | ok (newAccessTok newRefreshTok : String)
  | missingToken
  | invalidToken
  | invalidType
  | invalidFields
  | revoked
deriving DecidableEq

/-- Embeds `refresh_token` (api/routes/auth.py lines 80 to 123).  The
fresh token strings minted by the codec are passed in as parameters.
Returns the outcome and the updated store. -/
def refresh_ep (s : Store) (now : ℚ) (cookie : Option TokenData)
    (newAccessTok newRefreshTok : String) : RefreshResult × Store :=
  match cookie with
  | none => (.missingToken, s)
  | some t =>
    match decode t now 0 with
    | .expired => (.invalidToken, s)
    | .invalid => (.invalidToken, s)
    | .ok p =>
      if p.token_use ≠ "refresh" then (.invalidType, s)
      else
        match p.exp with
        | none => (.invalidFields, s)
        | some e =>
          if p.jti = "" ∨ e = 0 ∨ p.sub = "" then (.invalidFields, s)
          else if is_jti_revoked s now p.jti then (.revoked, s)
          else (.ok newAccessTok newRefreshTok,
                (revoke_jti s now p.jti (some e)).2)

/-- Outcome of the `/auth/logout` route: success (recording whether the
refresh cookie was deleted) or the surfaced 400 invalid-token error. -/
inductive LogoutResult where
  | ok (refreshCookieCleared : Bool)
  | invalidToken
deriving DecidableEq

/-- Embeds `logout` (api/routes/auth.py lines 126 to 158): a failure to
decode the presented access token (or its missing `jti`/`exp`) is
surfaced as a 400; the access JTI is revoked; then, if a refresh cookie
is present, its parse failure is swallowed, a parsed refresh token with
`jti` and `exp` is revoked, and the cookie is deleted either way. -/
def logout_ep (s : Store) (now : ℚ) (accessTok : TokenData)
    (refreshCookie : Option TokenData) : LogoutResult × Store :=
  match decode accessTok now 0 with
  | .expired => (.invalidToken, s)
  | .invalid => (.invalidToken, s)
  | .ok p =>
    match p.exp with
    | none => (.invalidToken, s)
    | some e =>
      if p.jti = "" ∨ e = 0 then (.invalidToken, s)
      else
        let s1 := (revoke_jti s now p.jti (some e)).2
        match refreshCookie with
        | none => (.ok false, s1)
        | some rt =>
          match decode rt now 0 with
          | .expired => (.ok true, s1)
          | .invalid => (.ok true, s1)
          | .ok rp =>
            match rp.exp with
            | none => (.ok true, s1)
            | some re =>
              if rp.jti = "" ∨ re = 0 then (.ok true, s1)
              else (.ok true, (revoke_jti s1 now rp.jti (some re)).2)

/-- Embeds `revoke_by_jti` (api/routes/auth.py lines 40 to 52): a truthy
positive `ttl_seconds` yields `exp_ts = time.time() + ttl_seconds`,
anything else leaves `exp_ts = None`; then `revoke_jti` runs.  Returns
the updated store. -/
def revoke_by_jti_ep (s : Store) (now : ℚ) (jti : String)
    (ttl_seconds : Option ℤ) : Store :=
  let exp_ts : Option ℚ :=
    match ttl_seconds with
    | none => none
    | some t => if t ≠ 0 ∧ 0 < t then some (now + (t : ℚ)) else none
  (revoke_jti s now jti exp_ts).2

/-! ### Arithmetic facts about Python truncation -/

theorem pyInt_nonpos_iff (q : ℚ) : pyInt q ≤ 0 ↔ q < 1 := by
  rw [pyInt]
  by_cases hq : q < 0
  · rw [if_pos hq]
    constructor
    · intro _
      exact hq.trans one_pos
    · intro _
      exact Int.ceil_le.mpr (by exact_mod_cast hq.le)
  · rw [if_neg hq]
    constructor
    · intro h
      have h1 : ⌊q⌋ < 1 := by omega
      have h2 : q < ((1:ℤ):ℚ) := Int.floor_lt.mp h1
      exact_mod_cast h2
    · intro h
      have h2 : q < ((1:ℤ):ℚ) := by exact_mod_cast h
      have := Int.floor_lt.mpr h2
      omega

theorem pyInt_pos_iff (q : ℚ) : 0 < pyInt q ↔ 1 ≤ q := by
  constructor
  · intro h
    by_contra hc
    have := (pyInt_nonpos_iff q).mpr (not_le.mp hc)
    omega
  · intro h
    rcases lt_or_le 0 (pyInt q) with h1 | h1
    · exact h1
    · exact absurd ((pyInt_nonpos_iff q).mp h1) (not_lt.mpr h)

theorem pyInt_cast_le (q : ℚ) (h : 0 ≤ q) : (pyInt q : ℚ) ≤ q := by
  rw [pyInt, if_neg (not_lt.mpr h)]
  exact Int.floor_le q

theorem pyInt_intCast (n : ℤ) : pyInt (n : ℚ) = n := by
  rw [pyInt]
  by_cases h : (n:ℚ) < 0
  · rw [if_pos h, Int.ceil_intCast]
  · rw [if_neg h, Int.floor_intCast]

/-! ### Claim C1 -/

/-- C1, counterexample: a valid-signature, unexpired, non-revoked refresh
token (token_use = "refresh") carrying a jti and a sub, presented to the
Authorization Gate on a protected route, is not rejected: the gate
attaches the identity and runs the handler, because
`AuthMiddleware.dispatch` never inspects `token_use`. -/
theorem C1_counterexample :
    dispatch_protected "production" 5 true Store.empty 0 (fun _ => some true)
      ⟨some (.payload ⟨"u1", "refresh", "r1", some 1000⟩), none, none⟩ =
      .proceed "u1" "r1" := by
  norm_num [dispatch_protected, extract_token, decode, is_jti_revoked,
    Store.get, Store.empty, afterRevocation, jti_key, List.find?]
  decide

/-- C1, amended: the refresh operation rejects every token whose
`token_use` claim is not "refresh" with the invalid-token-type error
(400); the Authorization Gate, however, does not inspect `token_use`,
and accepts a valid-signature, unexpired, non-revoked refresh token
carrying a jti whose subject exists and is active. -/
theorem C1_thm :
    (∀ (s : Store) (now : ℚ) (t : TokenData) (p : Payload) (na nr : String),
        decode t now 0 = .ok p → p.token_use ≠ "refresh" →
        refresh_ep s now (some t) na nr = (.invalidType, s))
  ∧ (∀ (env : String) (lw : ℚ) (s : Store) (now : ℚ)
        (users : String → Option Bool) (r : Request) (t : TokenData)
        (p : Payload),
        extract_token r = some t → decode t now lw = .ok p →
        p.token_use = "refresh" → p.jti ≠ "" →
        is_jti_revoked s now p.jti = false → p.sub ≠ "" →
        users p.sub = some true →
        dispatch_protected env lw true s now users r = .proceed p.sub p.jti) := by
  constructor
  · intro s now t p na nr hdec htu
    simp only [refresh_ep]
    rw [hdec]
    simp [htu]
  · intro env lw s now users r t p hext hdec htu hjti hrev hsub husers
    simp only [dispatch_protected, hext, hdec]
    simp [hjti, hrev, afterRevocation, hsub, husers]

/-- C1 witness: a concrete access token presented to the refresh route is
rejected with the invalid-token-type error, and a concrete refresh token
is accepted by the gate. -/
theorem C1_witness :
    refresh_ep Store.empty 0
        (some (.payload ⟨"u1", "access", "a1", some 100⟩)) "na" "nr" =
      (.invalidType, Store.empty)
  ∧ dispatch_protected "production" 5 true Store.empty 0 (fun _ => some true)
      ⟨some (.payload ⟨"u2", "refresh", "r2", some 100⟩), none, none⟩ =
      .proceed "u2" "r2" := by
  constructor
  · exact C1_thm.1 Store.empty 0
      (.payload ⟨"u1", "access", "a1", some 100⟩)
      ⟨"u1", "access", "a1", some 100⟩ "na" "nr"
      (by norm_num [decode]) (by decide)
  · exact C1_thm.2 "production" 5 Store.empty 0 (fun _ => some true)
      ⟨some (.payload ⟨"u2", "refresh", "r2", some 100⟩), none, none⟩
      (.payload ⟨"u2", "refresh", "r2", some 100⟩)
      ⟨"u2", "refresh", "r2", some 100⟩
      rfl (by norm_num [decode]) rfl (by decide) (by decide) (by decide) rfl

/-! ### Claim C2 -/

/-- C2, counterexample: with now = 0, `revoke(j, 1/2)` satisfies
`exp_ts > now` yet returns false and writes nothing (the truncated
remaining lifetime is 0); and after `revoke(j, 5/2)` the entry's TTL is
the floor 2, not the ceiling 3: at time 9/4 the jti is no longer marked
revoked, though the claim's ceiling TTL of 3 would still cover it. -/
theorem C2_counterexample :
    (revoke_jti Store.empty 0 "j" (some (1/2))).1 = false ∧
    is_jti_revoked ((revoke_jti Store.empty 0 "j" (some (5/2))).2) (9/4) "j" =
      false := by
  constructor
  · have h : pyInt ((1:ℚ)/2 - 0) = 0 := by
      rw [pyInt, if_neg (by norm_num), Int.floor_eq_iff]
      norm_num
    simp only [revoke_jti, h]
    norm_num
  · have h : pyInt ((5:ℚ)/2 - 0) = 2 := by
      rw [pyInt, if_neg (by norm_num), Int.floor_eq_iff]
      norm_num
    simp only [revoke_jti, h]
    norm_num
    simp only [is_jti_revoked, Store.get, Store.set, Store.empty,
      List.filter, List.find?, jti_key]
    norm_num

/-- C2, amended: `revoke(jti, exp_ts)` computes the remaining lifetime
truncated to whole seconds (floor).  If `exp_ts - now < 1` (already
expired, or under one second remaining) it returns false and writes no
entry, so for a jti with no live entry `is_revoked` stays false; if
`exp_ts - now >= 1` it returns true and writes an entry whose TTL is the
floor of `exp_ts - now`, and `is_revoked(jti)` is true exactly until
that TTL elapses. -/
theorem C2_thm (s : Store) (now : ℚ) (j : String) (e : ℚ) :
    (e - now < 1 → revoke_jti s now j (some e) = (false, s))
  ∧ (1 ≤ e - now →
      (revoke_jti s now j (some e)).1 = true ∧
      ∀ t : ℚ,
        is_jti_revoked (revoke_jti s now j (some e)).2 t j = true ↔
          t < now + (pyInt (e - now) : ℚ))
  ∧ (∀ t : ℚ, s.get t (jti_key j) = none → is_jti_revoked s t j = false) := by
  refine ⟨?_, ?_, ?_⟩
  · intro h
    have hnp : pyInt (e - now) ≤ 0 := (pyInt_nonpos_iff _).mpr h
    simp only [revoke_jti]
    rw [if_pos hnp]
  · intro h
    have hp : 0 < pyInt (e - now) := (pyInt_pos_iff _).mpr h
    have hnp : ¬ (pyInt (e - now) ≤ 0) := not_le.mpr hp
    constructor
    · simp only [revoke_jti]
      rw [if_neg hnp]
    · intro t
      simp only [revoke_jti]
      rw [if_neg hnp]
      simp only [is_jti_revoked]
      rw [Store.get_set_self]
      by_cases ht : t < now + (pyInt (e - now) : ℚ)
      · simp [ht]
      · simp [ht]
  · intro t h
    simp [is_jti_revoked, h]

/-- C2 witness: revoking a concrete jti two seconds before expiry
returns true, and the revocation is still visible one second later. -/
theorem C2_witness :
    (revoke_jti Store.empty 0 "a" (some 2)).1 = true ∧
    (is_jti_revoked (revoke_jti Store.empty 0 "a" (some 2)).2 1 "a" = true ↔
      (1:ℚ) < 0 + (pyInt (2 - 0) : ℚ)) := by
  have h := (C2_thm Store.empty 0 "a" 2).2.1 (by norm_num)
  exact ⟨h.1, h.2 1⟩

/-! ### Claim C3 -/

/-- C3, counterexample: a refresh token with 2.5 seconds of remaining
validity (at least one second, as the claim requires) is refreshed
successfully at time 0; the revocation entry's TTL is truncated to 2
seconds, so a second refresh call with the very same token at time 9/4
(while the token itself is still unexpired) succeeds and mints a second
token pair instead of failing with TokenRevoked. -/
theorem C3_counterexample :
    (refresh_ep Store.empty 0
        (some (.payload ⟨"u1", "refresh", "r1", some (5/2)⟩)) "A1" "R1").1 =
      .ok "A1" "R1" ∧
    (refresh_ep
        (refresh_ep Store.empty 0
          (some (.payload ⟨"u1", "refresh", "r1", some (5/2)⟩)) "A1" "R1").2
        (9/4)
        (some (.payload ⟨"u1", "refresh", "r1", some (5/2)⟩)) "A2" "R2").1 =
      .ok "A2" "R2" := by
  have h : pyInt ((5:ℚ)/2) = 2 := by
    rw [pyInt, if_neg (by norm_num), Int.floor_eq_iff]
    norm_num
  have step1 : refresh_ep Store.empty 0
      (some (.payload ⟨"u1", "refresh", "r1", some (5/2)⟩)) "A1" "R1" =
      (.ok "A1" "R1",
        Store.empty.set (jti_key "r1") "revoked" (some (2:ℚ))) := by
    norm_num [refresh_ep, decode, is_jti_revoked, Store.get, Store.empty,
      List.find?, revoke_jti, h, jti_key]
    decide
  refine ⟨by rw [step1], ?_⟩
  rw [step1]
  norm_num [refresh_ep, decode, is_jti_revoked, Store.get, Store.set,
    Store.empty, List.find?, List.filter, revoke_jti, h, jti_key]
  decide

/-- C3, amended: after one successful refresh at time t1 of a refresh
token with at least one second of remaining validity, the presented jti
is revoked with TTL equal to the floor of its remaining validity, and
every later refresh call presenting the same token before that TTL
elapses fails with TokenRevoked and leaves the store unchanged (no new
pair is minted). -/
theorem C3_thm (s : Store) (t1 t2 : ℚ) (p : Payload) (e : ℚ)
    (na nr na2 nr2 : String) :
    p.token_use = "refresh" → p.jti ≠ "" → p.sub ≠ "" → p.exp = some e →
    0 ≤ t1 → 1 ≤ e - t1 →
    s.get t1 (jti_key p.jti) = none →
    t1 ≤ t2 → t2 < t1 + (pyInt (e - t1) : ℚ) →
    (refresh_ep s t1 (some (.payload p)) na nr).1 = .ok na nr ∧
    refresh_ep (refresh_ep s t1 (some (.payload p)) na nr).2 t2
        (some (.payload p)) na2 nr2 =
      (.revoked, (refresh_ep s t1 (some (.payload p)) na nr).2) := by
  intro htu hjti hsub hexp ht1 hrem hfresh ht12 ht2
  have hepos : 0 < e := by linarith
  have he0 : e ≠ 0 := ne_of_gt hepos
  have hdec1 : decode (.payload p) t1 0 = .ok p := by
    simp only [decode, hexp]
    rw [if_neg (by push_neg; linarith)]
  have hcast : (pyInt (e - t1) : ℚ) ≤ e - t1 := pyInt_cast_le _ (by linarith)
  have hdec2 : decode (.payload p) t2 0 = .ok p := by
    simp only [decode, hexp]
    rw [if_neg (by push_neg; linarith)]
  have hrev1 : is_jti_revoked s t1 p.jti = false := by
    simp [is_jti_revoked, hfresh]
  have hpos : 0 < pyInt (e - t1) := (pyInt_pos_iff _).mpr hrem
  have step1 : refresh_ep s t1 (some (.payload p)) na nr =
      (.ok na nr,
        s.set (jti_key p.jti) "revoked" (some (t1 + (pyInt (e - t1) : ℚ)))) := by
    simp only [refresh_ep, hdec1, hexp]
    simp [htu, hjti, he0, hsub, hrev1, revoke_jti, not_le.mpr hpos]
  refine ⟨by rw [step1], ?_⟩
  rw [step1]
  simp only [refresh_ep, hdec2, hexp]
  simp only [htu, hjti, he0, hsub]
  have hrev2 : is_jti_revoked
      (s.set (jti_key p.jti) "revoked" (some (t1 + (pyInt (e - t1) : ℚ))))
      t2 p.jti = true := by
    simp only [is_jti_revoked]
    rw [Store.get_set_self]
    simp [ht2]
  simp [hrev2]

/-- C3 witness: a concrete refresh token with 10 seconds of validity is
rotated at time 0 and its replay at time 5 fails with TokenRevoked. -/
theorem C3_witness :
    (refresh_ep Store.empty 0
        (some (.payload ⟨"u", "refresh", "r", some 10⟩)) "A1" "R1").1 =
      .ok "A1" "R1" ∧
    refresh_ep
        (refresh_ep Store.empty 0
          (some (.payload ⟨"u", "refresh", "r", some 10⟩)) "A1" "R1").2 5
        (some (.payload ⟨"u", "refresh", "r", some 10⟩)) "A2" "R2" =
      (.revoked,
        (refresh_ep Store.empty 0
          (some (.payload ⟨"u", "refresh", "r", some 10⟩)) "A1" "R1").2) := by
  have h10 : pyInt ((10:ℚ) - 0) = 10 := by
    rw [show ((10:ℚ) - 0) = ((10:ℤ):ℚ) by norm_num, pyInt_intCast]
  exact C3_thm Store.empty 0 5 ⟨"u", "refresh", "r", some 10⟩ 10 "A1" "R1"
    "A2" "R2" rfl (by decide) (by decide) rfl (by norm_num) (by norm_num) rfl
    (by norm_num) (by rw [h10]; push_cast; norm_num)

/-! ### Claim C4 -/

/-- C4: for a protected request whose token decodes with a jti, when the
revocation-store check raises (storeUp = false) the gate proceeds to the
subject checks exactly as if the token were not revoked in operating
mode "local", and rejects with 503 in every other mode; and when the
store check does not raise, the gate's result does not depend on the
operating mode at all — the fail-open flag is consulted only at the
store-failure point. -/
theorem C4_thm (env : String) (lw : ℚ) (s : Store) (now : ℚ)
    (users : String → Option Bool) (r : Request) (t : TokenData) (p : Payload) :
    extract_token r = some t → decode t now lw = .ok p → p.jti ≠ "" →
    (dispatch_protected "local" lw false s now users r =
        afterRevocation users p)
  ∧ (env ≠ "local" →
      dispatch_protected env lw false s now users r = .rejectStoreDown)
  ∧ (is_jti_revoked s now p.jti = false →
      dispatch_protected env lw true s now users r = afterRevocation users p)
  ∧ (∀ env1 env2 : String,
      dispatch_protected env1 lw true s now users r =
        dispatch_protected env2 lw true s now users r) := by
  intro hext hdec hjti
  refine ⟨?_, ?_, ?_, ?_⟩
  · simp [dispatch_protected, hext, hdec, hjti]
  · intro henv
    simp [dispatch_protected, hext, hdec, hjti, henv]
  · intro hrev
    simp [dispatch_protected, hext, hdec, hjti, hrev]
  · intro env1 env2
    simp [dispatch_protected, hext, hdec, hjti]

/-- C4 witness: with the store unreachable, a concrete valid token
passes the gate in "local" mode and is rejected with 503 in
"production". -/
theorem C4_witness :
    dispatch_protected "local" 5 false Store.empty 0 (fun _ => some true)
        ⟨some (.payload ⟨"u", "access", "j", some 100⟩), none, none⟩ =
      afterRevocation (fun _ => some true) ⟨"u", "access", "j", some 100⟩
  ∧ dispatch_protected "production" 5 false Store.empty 0 (fun _ => some true)
        ⟨some (.payload ⟨"u", "access", "j", some 100⟩), none, none⟩ =
      .rejectStoreDown := by
  constructor
  · exact (C4_thm "production" 5 Store.empty 0 (fun _ => some true)
      ⟨some (.payload ⟨"u", "access", "j", some 100⟩), none, none⟩
      (.payload ⟨"u", "access", "j", some 100⟩) ⟨"u", "access", "j", some 100⟩
      rfl (by norm_num [decode]) (by decide)).1
  · exact (C4_thm "production" 5 Store.empty 0 (fun _ => some true)
      ⟨some (.payload ⟨"u", "access", "j", some 100⟩), none, none⟩
      (.payload ⟨"u", "access", "j", some 100⟩) ⟨"u", "access", "j", some 100⟩
      rfl (by norm_num [decode]) (by decide)).2.1 (by decide)

/-! ### Claim C5 -/

/-- C5, counterexample: a valid token whose payload carries a jti but no
sub claim is rejected by the gate with 401 (invalid token subject); the
claim's enumeration has no such case — it would fall to "otherwise the
handler runs" (or at best "subject not found -> 404"), neither of which
is a 401 rejection. -/
theorem C5_counterexample :
    dispatch_protected "production" 5 true Store.empty 0 (fun _ => some true)
      ⟨some (.payload ⟨"", "access", "j1", some 100⟩), none, none⟩ =
      .rejectNoSub ∧
    statusOf GateResult.rejectNoSub = some 401 := by
  constructor
  · norm_num [dispatch_protected, extract_token, decode, is_jti_revoked,
      Store.get, Store.empty, afterRevocation, jti_key, List.find?]
    decide
  · rfl

/-- C5, amended: for every protected request with the revocation store
reachable, the gate's outcomes are exactly: no bearer token in header,
query or cookie -> 401; token expired -> 401 with the expiry-specific
marker (the distinct `rejectExpired` response); malformed or bad
signature -> 403; payload lacking jti -> 401; jti revoked -> 401;
payload lacking sub -> 401; subject not found -> 404; subject inactive
-> 400; otherwise the identity is attached and the handler runs. -/
theorem C5_thm (env : String) (lw : ℚ) (s : Store) (now : ℚ)
    (users : String → Option Bool) (r : Request) :
    (extract_token r = none →
      dispatch_protected env lw true s now users r = .rejectNoToken ∧
      statusOf GateResult.rejectNoToken = some 401)
  ∧ (∀ t, extract_token r = some t → decode t now lw = .expired →
      dispatch_protected env lw true s now users r = .rejectExpired ∧
      statusOf GateResult.rejectExpired = some 401)
  ∧ (∀ t, extract_token r = some t → decode t now lw = .invalid →
      dispatch_protected env lw true s now users r = .rejectInvalid ∧
      statusOf GateResult.rejectInvalid = some 403)
  ∧ (∀ t p, extract_token r = some t → decode t now lw = .ok p →
      p.jti = "" →
      dispatch_protected env lw true s now users r = .rejectNoJti ∧
      statusOf GateResult.rejectNoJti = some 401)
  ∧ (∀ t p, extract_token r = some t → decode t now lw = .ok p →
      p.jti ≠ "" → is_jti_revoked s now p.jti = true →
      dispatch_protected env lw true s now users r = .rejectRevoked ∧
      statusOf GateResult.rejectRevoked = some 401)
  ∧ (∀ t p, extract_token r = some t → decode t now lw = .ok p →
      p.jti ≠ "" → is_jti_revoked s now p.jti = false → p.sub = "" →
      dispatch_protected env lw true s now users r = .rejectNoSub ∧
      statusOf GateResult.rejectNoSub = some 401)
  ∧ (∀ t p, extract_token r = some t → decode t now lw = .ok p →
      p.jti ≠ "" → is_jti_revoked s now p.jti = false → p.sub ≠ "" →
      users p.sub = none →
      dispatch_protected env lw true s now users r = .rejectUserNotFound ∧
      statusOf GateResult.rejectUserNotFound = some 404)
  ∧ (∀ t p, extract_token r = some t → decode t now lw = .ok p →
      p.jti ≠ "" → is_jti_revoked s now p.jti = false → p.sub ≠ "" →
      users p.sub = some false →
      dispatch_protected env lw true s now users r = .rejectInactive ∧
      statusOf GateResult.rejectInactive = some 400)
  ∧ (∀ t p, extract_token r = some t → decode t now lw = .ok p →
      p.jti ≠ "" → is_jti_revoked s now p.jti = false → p.sub ≠ "" →
      users p.sub = some true →
      dispatch_protected env lw true s now users r = .proceed p.sub p.jti) := by
  refine ⟨?_, ?_, ?_, ?_, ?_, ?_, ?_, ?_, ?_⟩
  · intro hext
    exact ⟨by simp [dispatch_protected, hext], rfl⟩
  · intro t hext hdec
    exact ⟨by simp [dispatch_protected, hext, hdec], rfl⟩
  · intro t hext hdec
    exact ⟨by simp [dispatch_protected, hext, hdec], rfl⟩
  · intro t p hext hdec hjti
    exact ⟨by simp [dispatch_protected, hext, hdec, hjti], rfl⟩
  · intro t p hext hdec hjti hrev
    exact ⟨by simp [dispatch_protected, hext, hdec, hjti, hrev], rfl⟩
  · intro t p hext hdec hjti hrev hsub
    exact ⟨by simp [dispatch_protected, hext, hdec, hjti, hrev,
      afterRevocation, hsub], rfl⟩
  · intro t p hext hdec hjti hrev hsub husers
    exact ⟨by simp [dispatch_protected, hext, hdec, hjti, hrev,
      afterRevocation, hsub, husers], rfl⟩
  · intro t p hext hdec hjti hrev hsub husers
    exact ⟨by simp [dispatch_protected, hext, hdec, hjti, hrev,
      afterRevocation, hsub, husers], rfl⟩
  · intro t p hext hdec hjti hrev hsub husers
    simp [dispatch_protected, hext, hdec, hjti, hrev,
      afterRevocation, hsub, husers]

/-- C5 witness: a concrete request with no token anywhere is rejected
with 401. -/
theorem C5_witness :
    dispatch_protected "production" 5 true Store.empty 0 (fun _ => some true)
      ⟨none, none, none⟩ = .rejectNoToken ∧
    statusOf GateResult.rejectNoToken = some 401 :=
  (C5_thm "production" 5 Store.empty 0 (fun _ => some true)
    ⟨none, none, none⟩).1 rfl

/-! ### Claim C6 -/

/-- C6: for a phone number with an active (live, nonempty as every
generated code is) one-time code, `verify_code` with the matching code
returns true and deletes the stored code, a second call on the resulting
store returns false for any code at any time, and `verify_code` with a
non-matching code returns false leaving the store unchanged. -/
theorem C6_thm (s : Store) (now : ℚ) (phone c : String) :
    s.get now (otp_key phone) = some c → c ≠ "" →
    (verify_code s now phone c = (true, s.del (otp_key phone)))
  ∧ (∀ (t : ℚ) (c2 : String),
      (verify_code (s.del (otp_key phone)) t phone c2).1 = false)
  ∧ (∀ c2 : String, c2 ≠ c → verify_code s now phone c2 = (false, s)) := by
  intro hget hc
  refine ⟨?_, ?_, ?_⟩
  · simp only [verify_code, hget]
    simp [hc]
  · intro t c2
    simp [verify_code, Store.get_del_self]
  · intro c2 hne
    simp only [verify_code, hget]
    simp [hc, hne.symm]

/-- C6 witness: a concrete stored code "123456" verifies once, fails on
immediate re-verification, and a wrong code fails leaving the store
unchanged. -/
theorem C6_witness :
    verify_code (Store.empty.set (otp_key "p") "123456" (some 300)) 0 "p"
        "123456" =
      (true, (Store.empty.set (otp_key "p") "123456" (some 300)).del
        (otp_key "p"))
  ∧ (verify_code
      ((Store.empty.set (otp_key "p") "123456" (some 300)).del (otp_key "p"))
      0 "p" "123456").1 = false
  ∧ verify_code (Store.empty.set (otp_key "p") "123456" (some 300)) 0 "p"
      "000000" =
      (false, Store.empty.set (otp_key "p") "123456" (some 300)) := by
  have h := C6_thm (Store.empty.set (otp_key "p") "123456" (some 300)) 0
    "p" "123456" (by rw [Store.get_set_self]; norm_num) (by decide)
  exact ⟨h.1, h.2.1 0 "123456", h.2.2 "000000" (by decide)⟩

/-! ### Claim C7 -/

/-- C7: a state written by `generate_state` validates successfully
within its TTL, deleting the entry; every later `validate_state` on the
resulting store returns false; a state with no live entry (never
generated) returns false; and once the TTL has elapsed validation
returns false. -/
theorem C7_thm (s : Store) (now t1 : ℚ) (st : String) :
    t1 < now + STATE_TTL_SECONDS →
    (validate_state (generate_state s now st).2 t1 st =
      (true, ((generate_state s now st).2).del ("wxstate:" ++ st)))
  ∧ (∀ t2 : ℚ,
      (validate_state (((generate_state s now st).2).del ("wxstate:" ++ st))
        t2 st).1 = false)
  ∧ (∀ (s2 : Store) (t : ℚ), s2.get t ("wxstate:" ++ st) = none →
      (validate_state s2 t st).1 = false)
  ∧ (∀ t : ℚ, now + STATE_TTL_SECONDS ≤ t →
      (validate_state (generate_state s now st).2 t st).1 = false) := by
  intro ht1
  refine ⟨?_, ?_, ?_, ?_⟩
  · simp only [generate_state, validate_state]
    rw [Store.get_set_self]
    simp [ht1]
  · intro t2
    simp [validate_state, Store.get_del_self]
  · intro s2 t h
    simp [validate_state, h]
  · intro t ht
    simp only [generate_state, validate_state]
    rw [Store.get_set_self]
    simp [not_lt.mpr ht]

/-- C7 witness: a concrete state generated at time 0 validates at time
10, fails on a second call, fails when never generated, and fails at
time 400 (after the 300-second TTL). -/
theorem C7_witness :
    validate_state (generate_state Store.empty 0 "s1").2 10 "s1" =
      (true, ((generate_state Store.empty 0 "s1").2).del ("wxstate:" ++ "s1"))
  ∧ (validate_state
      (((generate_state Store.empty 0 "s1").2).del ("wxstate:" ++ "s1"))
      20 "s1").1 = false
  ∧ (validate_state Store.empty 0 "s1").1 = false
  ∧ (validate_state (generate_state Store.empty 0 "s1").2 400 "s1").1 =
      false := by
  have h := C7_thm Store.empty 0 10 "s1"
    (by norm_num [STATE_TTL_SECONDS])
  exact ⟨h.1, h.2.1 20, h.2.2.1 Store.empty 0 rfl,
    h.2.2.2 400 (by norm_num [STATE_TTL_SECONDS])⟩

/-! ### Claim C8 -/

/-- C8, counterexample: a logout at time 0 with an access token expiring
at 5/2 succeeds, but the revocation entry written for its jti expires at
instant 2 — a TTL of 2 whole seconds, which is not equal to the token's
remaining validity of 5/2 seconds (the claim's "TTL equal to each
token's remaining validity" fails under the truncation in
`revoke_jti`). -/
theorem C8_counterexample :
    (logout_ep Store.empty 0 (.payload ⟨"u", "access", "a", some (5/2)⟩)
        none).1 = .ok false ∧
    ((logout_ep Store.empty 0 (.payload ⟨"u", "access", "a", some (5/2)⟩)
        none).2).lookupExp (jti_key "a") = some (some 2) ∧
    (2 : ℚ) ≠ 5/2 - 0 := by
  have h : pyInt ((5:ℚ)/2) = 2 := by
    rw [pyInt, if_neg (by norm_num), Int.floor_eq_iff]
    norm_num
  refine ⟨?_, ?_, by norm_num⟩
  · norm_num [logout_ep, decode, revoke_jti, h]
    decide
  · norm_num [logout_ep, decode, revoke_jti, h, Store.lookupExp_set_self]
    decide

/-- C8, amended: a failure to decode the presented access token is
surfaced as an error to the caller; an absent refresh cookie leaves
logout successful (no cookie cleared); a refresh cookie that fails to
parse is swallowed, logout succeeds and the cookie is cleared; and when
both tokens parse, both jtis are revoked through `revoke_jti` with each
token's exp, i.e. with TTL equal to the floor of each token's remaining
validity. -/
theorem C8_thm :
    (∀ (s : Store) (now : ℚ) (t : TokenData) (rc : Option TokenData),
      decode t now 0 = .expired ∨ decode t now 0 = .invalid →
      logout_ep s now t rc = (.invalidToken, s))
  ∧ (∀ (s : Store) (now : ℚ) (p : Payload) (e : ℚ),
      decode (.payload p) now 0 = .ok p → p.exp = some e → p.jti ≠ "" →
      e ≠ 0 →
      logout_ep s now (.payload p) none =
        (.ok false, (revoke_jti s now p.jti (some e)).2))
  ∧ (∀ (s : Store) (now : ℚ) (p : Payload) (e : ℚ) (rt : TokenData),
      decode (.payload p) now 0 = .ok p → p.exp = some e → p.jti ≠ "" →
      e ≠ 0 →
      decode rt now 0 = .expired ∨ decode rt now 0 = .invalid →
      logout_ep s now (.payload p) (some rt) =
        (.ok true, (revoke_jti s now p.jti (some e)).2))
  ∧ (∀ (s : Store) (now : ℚ) (p rp : Payload) (e re : ℚ),
      decode (.payload p) now 0 = .ok p → p.exp = some e → p.jti ≠ "" →
      e ≠ 0 →
      decode (.payload rp) now 0 = .ok rp → rp.exp = some re → rp.jti ≠ "" →
      re ≠ 0 →
      logout_ep s now (.payload p) (some (.payload rp)) =
        (.ok true,
          (revoke_jti (revoke_jti s now p.jti (some e)).2 now rp.jti
            (some re)).2) ∧
      (1 ≤ e - now → 1 ≤ re - now → jti_key p.jti ≠ jti_key rp.jti →
        ((revoke_jti (revoke_jti s now p.jti (some e)).2 now rp.jti
            (some re)).2).lookupExp (jti_key p.jti) =
          some (some (now + (pyInt (e - now) : ℚ))) ∧
        ((revoke_jti (revoke_jti s now p.jti (some e)).2 now rp.jti
            (some re)).2).lookupExp (jti_key rp.jti) =
          some (some (now + (pyInt (re - now) : ℚ))))) := by
  refine ⟨?_, ?_, ?_, ?_⟩
  · intro s now t rc hdec
    rcases hdec with h | h
    · simp [logout_ep, h]
    · simp [logout_ep, h]
  · intro s now p e hdec hexp hjti he0
    simp only [logout_ep, hdec, hexp]
    simp [hjti, he0]
  · intro s now p e rt hdec hexp hjti he0 hrt
    simp only [logout_ep, hdec, hexp]
    rcases hrt with h | h
    · simp [hjti, he0, h]
    · simp [hjti, he0, h]
  · intro s now p rp e re hdec hexp hjti he0 hdecr hexpr hjtir her0
    constructor
    · simp only [logout_ep, hdec, hexp, hdecr, hexpr]
      simp [hjti, he0, hjtir, her0]
    · intro hrem hremr hkey
      have hpa : ¬ (pyInt (e - now) ≤ 0) :=
        not_le.mpr ((pyInt_pos_iff _).mpr hrem)
      have hpr : ¬ (pyInt (re - now) ≤ 0) :=
        not_le.mpr ((pyInt_pos_iff _).mpr hremr)
      simp only [revoke_jti]
      rw [if_neg hpa, if_neg hpr]
      constructor
      · rw [Store.lookupExp_set_ne _ _ _ _ _ hkey.symm,
          Store.lookupExp_set_self]
      · rw [Store.lookupExp_set_self]

/-- C8 witness: a concrete logout with both tokens parsing revokes both
jtis, whose entries expire at the floored remaining validities. -/
theorem C8_witness :
    logout_ep Store.empty 0 (.payload ⟨"u", "access", "a", some 100⟩)
        (some (.payload ⟨"u", "refresh", "r", some 200⟩)) =
      (.ok true,
        (revoke_jti (revoke_jti Store.empty 0 "a" (some 100)).2 0 "r"
          (some 200)).2) ∧
    ((revoke_jti (revoke_jti Store.empty 0 "a" (some 100)).2 0 "r"
        (some 200)).2).lookupExp (jti_key "a") =
      some (some (0 + (pyInt ((100:ℚ) - 0) : ℚ))) ∧
    ((revoke_jti (revoke_jti Store.empty 0 "a" (some 100)).2 0 "r"
        (some 200)).2).lookupExp (jti_key "r") =
      some (some (0 + (pyInt ((200:ℚ) - 0) : ℚ))) := by
  have h := C8_thm.2.2.2 Store.empty 0 ⟨"u", "access", "a", some 100⟩
    ⟨"u", "refresh", "r", some 200⟩ 100 200 (by norm_num [decode]) rfl
    (by decide) (by norm_num) (by norm_num [decode]) rfl (by decide)
    (by norm_num)
  refine ⟨h.1, ?_, ?_⟩
  · exact (h.2 (by norm_num) (by norm_num) (by decide)).1
  · exact (h.2 (by norm_num) (by norm_num) (by decide)).2

/-! ### Claim C9 -/

theorem afterRevocation_ne_expired (users : String → Option Bool)
    (p : Payload) : afterRevocation users p ≠ .rejectExpired := by
  by_cases h : p.sub = ""
  · simp [afterRevocation, h]
  · simp only [afterRevocation, h]
    cases husers : users p.sub with
    | none => simp
    | some b => cases b <;> simp

/-- C9: the gate is registered with a clock leeway of 5 seconds
(`appLeeway`), and with that leeway a token whose exp has passed by at
most 5 seconds is never rejected as expired — under the usual
well-formedness conditions it is processed as valid — while a token
whose exp is more than 5 seconds in the past is rejected as expired. -/
theorem C9_thm :
    appLeeway = 5 ∧
    ∀ (env : String) (storeUp : Bool) (s : Store) (now : ℚ)
      (users : String → Option Bool) (r : Request) (p : Payload) (e : ℚ),
      extract_token r = some (.payload p) → p.exp = some e →
      ((now ≤ e + 5 →
        dispatch_protected env appLeeway storeUp s now users r ≠
          .rejectExpired)
      ∧ (e + 5 < now →
        dispatch_protected env appLeeway storeUp s now users r =
          .rejectExpired)
      ∧ (now ≤ e + 5 → p.jti ≠ "" → storeUp = true →
          is_jti_revoked s now p.jti = false → p.sub ≠ "" →
          users p.sub = some true →
          dispatch_protected env appLeeway storeUp s now users r =
            .proceed p.sub p.jti)) := by
  refine ⟨rfl, ?_⟩
  intro env storeUp s now users r p e hext hexp
  refine ⟨?_, ?_, ?_⟩
  · intro h
    have hdec : decode (.payload p) now appLeeway = .ok p := by
      simp only [decode, hexp, appLeeway]
      rw [if_neg (not_lt.mpr h)]
    simp only [dispatch_protected, hext, hdec]
    split_ifs <;> simp [afterRevocation_ne_expired]
  · intro h
    have hdec : decode (.payload p) now appLeeway = .expired := by
      simp only [decode, hexp, appLeeway]
      rw [if_pos h]
    simp [dispatch_protected, hext, hdec]
  · intro h hjti hup hrev hsub husers
    have hdec : decode (.payload p) now appLeeway = .ok p := by
      simp only [decode, hexp, appLeeway]
      rw [if_neg (not_lt.mpr h)]
    subst hup
    simp only [dispatch_protected, hext, hdec]
    simp [hjti, hrev, afterRevocation, hsub, husers]

/-- C9 witness: a token with exp = 0 passes the gate at time 5 (exactly
the leeway past exp) and is rejected as expired at time 6. -/
theorem C9_witness :
    dispatch_protected "production" appLeeway true Store.empty 5
        (fun _ => some true)
        ⟨some (.payload ⟨"u", "access", "j", some 0⟩), none, none⟩ =
      .proceed "u" "j"
  ∧ dispatch_protected "production" appLeeway true Store.empty 6
        (fun _ => some true)
        ⟨some (.payload ⟨"u", "access", "j", some 0⟩), none, none⟩ =
      .rejectExpired := by
  constructor
  · exact (C9_thm.2 "production" true Store.empty 5 (fun _ => some true)
      ⟨some (.payload ⟨"u", "access", "j", some 0⟩), none, none⟩
      ⟨"u", "access", "j", some 0⟩ 0 rfl rfl).2.2 (by norm_num) (by decide)
      rfl rfl (by decide) rfl
  · exact (C9_thm.2 "production" true Store.empty 6 (fun _ => some true)
      ⟨some (.payload ⟨"u", "access", "j", some 0⟩), none, none⟩
      ⟨"u", "access", "j", some 0⟩ 0 rfl rfl).2.1 (by norm_num)

/-! ### Claim C10 -/

/-- C10: the superuser revoke-by-jti operation treats ttl_seconds = 0 or
negative exactly like an omitted ttl_seconds — a permanent revocation
entry (no TTL) is written, not a no-op and not an error — while a
strictly positive ttl_seconds writes a TTL-bounded entry expiring
ttl_seconds after the call. -/
theorem C10_thm (s : Store) (now : ℚ) (j : String) :
    (revoke_by_jti_ep s now j none = (revoke_jti s now j none).2)
  ∧ (∀ t : ℤ, t ≤ 0 →
      revoke_by_jti_ep s now j (some t) = revoke_by_jti_ep s now j none)
  ∧ ((revoke_by_jti_ep s now j none).lookupExp (jti_key j) = some none)
  ∧ (∀ t : ℤ, 0 < t →
      (revoke_by_jti_ep s now j (some t)).lookupExp (jti_key j) =
        some (some (now + (t : ℚ)))) := by
  refine ⟨rfl, ?_, ?_, ?_⟩
  · intro t ht
    have hc : ¬ (t ≠ 0 ∧ 0 < t) := by
      rintro ⟨h1, h2⟩
      omega
    simp [revoke_by_jti_ep, hc]
  · simp [revoke_by_jti_ep, revoke_jti, Store.lookupExp_set_self]
  · intro t ht
    have hc : t ≠ 0 ∧ 0 < t := ⟨by omega, ht⟩
    have hpy : pyInt (now + (t:ℚ) - now) = t := by
      rw [show now + (t:ℚ) - now = (t:ℚ) by ring, pyInt_intCast]
    have hpos : ¬ (pyInt (now + (t:ℚ) - now) ≤ 0) := by
      rw [hpy]
      exact not_le.mpr ht
    simp only [revoke_by_jti_ep, if_pos hc, revoke_jti]
    rw [if_neg hpos, hpy]
    rw [Store.lookupExp_set_self]

/-- C10 witness: ttl_seconds = -3 behaves like an omitted ttl_seconds,
writing a permanent entry, while ttl_seconds = 7 writes an entry
expiring at instant 7. -/
theorem C10_witness :
    revoke_by_jti_ep Store.empty 0 "x" (some (-3)) =
      revoke_by_jti_ep Store.empty 0 "x" none
  ∧ (revoke_by_jti_ep Store.empty 0 "x" none).lookupExp (jti_key "x") =
      some none
  ∧ (revoke_by_jti_ep Store.empty 0 "x" (some 7)).lookupExp (jti_key "x") =
      some (some (0 + ((7:ℤ) : ℚ))) := by
  have h := C10_thm Store.empty 0 "x"
  exact ⟨h.2.1 (-3) (by norm_num), h.2.2.1, h.2.2.2 7 (by norm_num)⟩
